import Mathlib

/-!
Shallow embedding of the rack plugin-instance adapter (rack-sys).

The two backends are embedded from src/rack-sys/src/au_instance.cpp and
src/rack-sys/src/vst3_instance.cpp.  Native framework calls (AudioUnit and
VST3 component/controller entry points) are external effects: each embedded
operation takes their outcomes as explicit oracle arguments and records the
calls it makes (forwarded MIDI bytes, native parameter writes, bytes handed
to the controller) so that theorems can speak about what reached the plugin.
Float arithmetic is embedded as exact rational arithmetic; machine bytes are
Nat values below 256.
-/

-- ============================================================================
-- Error codes (include/rack_au.h, include/rack_vst3.h)
-- ============================================================================

def RACK_AU_OK : Int := 0
def RACK_AU_ERROR_GENERIC : Int := -1
def RACK_AU_ERROR_NOT_FOUND : Int := -2
def RACK_AU_ERROR_INVALID_PARAM : Int := -3
def RACK_AU_ERROR_NOT_INITIALIZED : Int := -4
def RACK_AU_ERROR_AUDIO_UNIT : Int := -1000

def RACK_VST3_OK : Int := 0
def RACK_VST3_ERROR_GENERIC : Int := -1
def RACK_VST3_ERROR_NOT_FOUND : Int := -2
def RACK_VST3_ERROR_INVALID_PARAM : Int := -3
def RACK_VST3_ERROR_NOT_INITIALIZED : Int := -4
def RACK_VST3_ERROR_LOAD_FAILED : Int := -5

-- ============================================================================
-- MIDI events (RackAUMidiEvent / RackVST3MidiEvent: identical C layout)
-- ============================================================================

/-- Caller-supplied MIDI event: sample offset, status byte, two data bytes and
a channel byte, exactly the fields of the C structs. -/
structure MidiEvent where
  sample_offset : Nat
  status : Nat
  data1 : Nat
  data2 : Nat
  channel : Nat
deriving Repr, DecidableEq

/-- Bytes of one MusicDeviceMIDIEvent call made by the AU backend, recording
what was forwarded to the native AudioUnit. -/
structure AUForwarded where
  status : Nat
  data1 : Nat
  data2 : Nat
  sample_offset : Nat
deriving Repr, DecidableEq

/-- Status byte the AU backend hands to MusicDeviceMIDIEvent: system messages
pass through unchanged, channel messages combine the upper status nibble with
the channel nibble (au_instance.cpp, rack_au_plugin_send_midi). -/
def au_midi_status (e : MidiEvent) : Nat :=
  if 0xF0 ≤ e.status then e.status else (e.status &&& 0xF0) ||| (e.channel &&& 0x0F)

/-- Event a channel message may legally carry per the AU validation: system
messages are exempt, channel messages need channel ≤ 15. -/
def au_event_ok (e : MidiEvent) : Bool :=
  0xF0 ≤ e.status ∨ e.channel ≤ 15

/-- Per-event loop of rack_au_plugin_send_midi (au_instance.cpp:1199-1236).
nativeRes gives the OSStatus of the MusicDeviceMIDIEvent call at each loop
index; the returned list records every call that was actually made. -/
def au_send_midi_loop (nativeRes : Nat → Int) :
    List MidiEvent → Nat → List AUForwarded → Int × List AUForwarded
  | [], _, acc => (RACK_AU_OK, acc)
  | e :: rest, idx, acc =>
    if 0xF0 ≤ e.status then
      let fwd := acc ++ [⟨e.status, e.data1, e.data2, e.sample_offset⟩]
      if nativeRes idx ≠ 0 then (RACK_AU_ERROR_AUDIO_UNIT + nativeRes idx, fwd)
      else au_send_midi_loop nativeRes rest (idx + 1) fwd
    else if 15 < e.channel then (RACK_AU_ERROR_INVALID_PARAM, acc)
    else
      let fwd := acc ++ [⟨(e.status &&& 0xF0) ||| (e.channel &&& 0x0F),
                          e.data1, e.data2, e.sample_offset⟩]
      if nativeRes idx ≠ 0 then (RACK_AU_ERROR_AUDIO_UNIT + nativeRes idx, fwd)
      else au_send_midi_loop nativeRes rest (idx + 1) fwd

/-- rack_au_plugin_send_midi (au_instance.cpp:1181-1239).  events = none models
a null events pointer; event_count is the separate C count argument (equal to
the list length whenever the pointer is valid). -/
def au_send_midi (nativeRes : Nat → Int) (initialized : Bool)
    (events : Option (List MidiEvent)) (event_count : Nat) : Int × List AUForwarded :=
  if ¬ initialized then (RACK_AU_ERROR_NOT_INITIALIZED, [])
  else if events = none ∧ 0 < event_count then (RACK_AU_ERROR_INVALID_PARAM, [])
  else if event_count = 0 then (RACK_AU_OK, [])
  else au_send_midi_loop nativeRes ((events.getD []).take event_count) 0 []

/-- VST3 event representation produced by the MIDI translator, one constructor
per branch of the switch in rack_vst3_plugin_send_midi. -/
inductive VstEvent where
  | noteOn (channel pitch : Nat) (velocity : ℚ) (sampleOffset : Nat)
  | noteOff (channel pitch : Nat) (velocity : ℚ) (sampleOffset : Nat)
  | polyPressure (channel pitch : Nat) (pressure : ℚ) (sampleOffset : Nat)
  | legacyMidiCC (channel controlNumber value value2 : Nat) (sampleOffset : Nat)
deriving Repr, DecidableEq

/-- Translation of one caller MIDI event by rack_vst3_plugin_send_midi
(vst3_instance.cpp:1016-1097): none models the default branch that skips the
event.  No channel validation is performed anywhere in this switch. -/
def vst3_translate (e : MidiEvent) : Option VstEvent :=
  let status := e.status &&& 0xF0
  if status = 0x90 then
    some (.noteOn e.channel e.data1 ((e.data2 : ℚ) / 127) e.sample_offset)
  else if status = 0x80 then
    some (.noteOff e.channel e.data1 ((e.data2 : ℚ) / 127) e.sample_offset)
  else if status = 0xA0 then
    some (.polyPressure e.channel e.data1 ((e.data2 : ℚ) / 127) e.sample_offset)
  else if status = 0xB0 then
    some (.legacyMidiCC e.channel e.data1 e.data2 0 e.sample_offset)
  else if status = 0xC0 then
    some (.legacyMidiCC e.channel 0x80 e.data1 0 e.sample_offset)
  else if status = 0xD0 then
    some (.legacyMidiCC e.channel 0x81 e.data1 0 e.sample_offset)
  else if status = 0xE0 then
    some (.legacyMidiCC e.channel 0x82 e.data1 e.data2 e.sample_offset)
  else none

/-- Event loop of rack_vst3_plugin_send_midi: every translated event is pushed
onto the plugin-internal input event queue; unknown statuses are skipped. -/
def vst3_send_midi_loop : List MidiEvent → List VstEvent → List VstEvent
  | [], queue => queue
  | e :: rest, queue =>
    match vst3_translate e with
    | some v => vst3_send_midi_loop rest (queue ++ [v])
    | none => vst3_send_midi_loop rest queue

/-- rack_vst3_plugin_send_midi (vst3_instance.cpp:998-1101).  events = none
models a null events pointer; the second component is the input event queue
after the call. -/
def vst3_send_midi (events : Option (List MidiEvent)) (event_count : Nat)
    (input_events : List VstEvent) : Int × List VstEvent :=
  match events with
  | none => (RACK_VST3_ERROR_INVALID_PARAM, input_events)
  | some evs => (RACK_VST3_OK, vst3_send_midi_loop (evs.take event_count) input_events)

-- ============================================================================
-- AU backend state and lifecycle (au_instance.cpp)
-- ============================================================================

/-- Cached AudioUnitParameterInfo fields the adapter reads: native minimum,
maximum and default values plus the unit enum. -/
structure AUParamInfo where
  minValue : ℚ
  maxValue : ℚ
  defaultValue : ℚ
  unit : Nat
deriving Repr, DecidableEq

/-- Fields of struct RackAUPlugin that the embedded operations read or write.
audio_unit = false models a null AudioComponentInstance; parameter_info = none
models a null (absent or invalidated) parameter-info cache.  parameter_count
in the C struct always equals parameter_ids.length on the paths modeled. -/
structure AUState where
  audio_unit : Bool
  initialized : Bool
  sample_rate : ℚ
  max_block_size : Nat
  sample_position : Int
  parameter_ids : List Nat
  parameter_info : Option (List AUParamInfo)
deriving Repr, DecidableEq

/-- Outcomes of the native calls rack_au_plugin_initialize makes: the OSStatus
of AudioUnitInitialize, whether the four buffer allocations succeed (collapsed
to one flag, every failure path returns GENERIC before initialized is set),
the parameter-id list when the ParameterList property query succeeds, whether
the info-cache malloc succeeds, and the per-parameter info query results. -/
structure AUInitEnv where
  allocOK : Bool
  auInitStatus : Int
  paramList : Option (List Nat)
  infoAllocOK : Bool
  paramInfoAt : Nat → Option AUParamInfo

/-- Parameter-info cache construction inside rack_au_plugin_initialize
(au_instance.cpp:506-531): the per-id queries run in order and the first
failure frees the whole cache (never partially trusted). -/
def au_build_info_cache (g : Nat → Option AUParamInfo) : List Nat → Option (List AUParamInfo)
  | [] => some []
  | id :: rest =>
    match g id with
    | none => none
    | some info =>
      match au_build_info_cache g rest with
      | none => none
      | some l => some (info :: l)

/-- rack_au_plugin_initialize (au_instance.cpp:291-540).  Stream-format and
MaximumFramesPerSlice failures are tolerated by the code and so carry no flag
here.  Note the early return: an already-initialized instance returns OK with
no state change at all. -/
def au_init (s : AUState) (env : AUInitEnv) (sample_rate : ℚ) (max_block_size : Nat) :
    Int × AUState :=
  if ¬ s.audio_unit then (RACK_AU_ERROR_NOT_INITIALIZED, s)
  else if s.initialized then (RACK_AU_OK, s)
  else
    let s1 := { s with sample_rate := sample_rate, max_block_size := max_block_size }
    if ¬ env.allocOK then (RACK_AU_ERROR_GENERIC, s1)
    else if env.auInitStatus ≠ 0 then (RACK_AU_ERROR_AUDIO_UNIT + env.auInitStatus, s1)
    else
      let s2 :=
        match env.paramList with
        | none => s1
        | some ids =>
          if ¬ env.infoAllocOK then { s1 with parameter_ids := ids }
          else { s1 with parameter_ids := ids,
                         parameter_info := au_build_info_cache env.paramInfoAt ids }
      (RACK_AU_OK, { s2 with initialized := true })

/-- Result of rack_au_plugin_process: return code, successor state, and
whether AudioUnitRender was reached (false on every validation failure). -/
structure AUProcResult where
  ret : Int
  state : AUState
  nativeCalled : Bool
deriving Repr, DecidableEq

/-- rack_au_plugin_process (au_instance.cpp:546-654).  renderStatus is the
OSStatus of AudioUnitRender; the input/output flags model non-null caller
buffer pointers.  A successful call advances sample_position by frames; every
other path leaves it untouched. -/
def au_process (s : AUState) (renderStatus : Int)
    (inputNonNull outputNonNull : Bool) (frames : Nat) : AUProcResult :=
  if ¬ s.initialized then ⟨RACK_AU_ERROR_NOT_INITIALIZED, s, false⟩
  else if ¬ inputNonNull ∨ ¬ outputNonNull ∨ frames = 0 then
    ⟨RACK_AU_ERROR_INVALID_PARAM, s, false⟩
  else if s.max_block_size < frames then ⟨RACK_AU_ERROR_INVALID_PARAM, s, false⟩
  else if renderStatus ≠ 0 then ⟨RACK_AU_ERROR_AUDIO_UNIT + renderStatus, s, true⟩
  else ⟨RACK_AU_OK, { s with sample_position := s.sample_position + frames }, true⟩

-- ============================================================================
-- AU parameter access (au_instance.cpp:664-884)
-- ============================================================================

/-- Outcomes of the native calls the AU parameter accessors can make: the
live ParameterInfo property query (used only when the cache is absent),
AudioUnitGetParameter and AudioUnitSetParameter.  Except Int carries the
nonzero OSStatus of a failed call. -/
structure AUAccessEnv where
  liveInfoAt : Nat → Except Int AUParamInfo
  rawValue : Nat → Except Int ℚ
  setStatus : Nat → ℚ → Int

/-- Epsilon guard of rack_au_plugin_get_parameter (1e-7f embedded as the
decimal it denotes). -/
def au_epsilon : ℚ := 1 / 10000000

/-- Normalization block of rack_au_plugin_get_parameter
(au_instance.cpp:717-740): malformed ranges (max < min) yield 0.5, ranges not
above epsilon yield 0.0, and otherwise the linear map is clamped to [0,1]. -/
def au_normalize (info : AUParamInfo) (raw : ℚ) : ℚ :=
  if info.maxValue < info.minValue then 1 / 2
  else
    let range := info.maxValue - info.minValue
    if au_epsilon < range then
      let v := (raw - info.minValue) / range
      if v < 0 then 0 else if 1 < v then 1 else v
    else 0

/-- Result of rack_au_plugin_get_parameter: return code, the normalized value
written through the out pointer, and whether the descriptor came from a live
per-call query rather than the cache. -/
structure AUGetResult where
  ret : Int
  value : Option ℚ
  liveQueried : Bool
deriving Repr, DecidableEq

/-- rack_au_plugin_get_parameter (au_instance.cpp:664-743), value out-pointer
assumed non-null. -/
def au_get_parameter (s : AUState) (env : AUAccessEnv) (index : Nat) : AUGetResult :=
  if ¬ s.initialized then ⟨RACK_AU_ERROR_NOT_INITIALIZED, none, false⟩
  else if s.parameter_ids.length ≤ index then ⟨RACK_AU_ERROR_INVALID_PARAM, none, false⟩
  else
    let pid := s.parameter_ids.getD index 0
    match s.parameter_info with
    | some cache =>
      match env.rawValue pid with
      | .error st => ⟨RACK_AU_ERROR_AUDIO_UNIT + st, none, false⟩
      | .ok raw => ⟨RACK_AU_OK, some (au_normalize (cache.getD index ⟨0, 0, 0, 0⟩) raw), false⟩
    | none =>
      match env.liveInfoAt pid with
      | .error st => ⟨RACK_AU_ERROR_AUDIO_UNIT + st, none, true⟩
      | .ok info =>
        match env.rawValue pid with
        | .error st => ⟨RACK_AU_ERROR_AUDIO_UNIT + st, none, true⟩
        | .ok raw => ⟨RACK_AU_OK, some (au_normalize info raw), true⟩

/-- Result of rack_au_plugin_set_parameter: return code, native value handed
to AudioUnitSetParameter (none when the call was never made), and whether the
descriptor came from a live query. -/
structure AUSetResult where
  ret : Int
  written : Option ℚ
  liveQueried : Bool
deriving Repr, DecidableEq

/-- rack_au_plugin_set_parameter (au_instance.cpp:745-804): the normalized
value is clamped to [0,1] first, then mapped to min + v * (max - min). -/
def au_set_parameter (s : AUState) (env : AUAccessEnv) (index : Nat) (value : ℚ) : AUSetResult :=
  if ¬ s.initialized then ⟨RACK_AU_ERROR_NOT_INITIALIZED, none, false⟩
  else if s.parameter_ids.length ≤ index then ⟨RACK_AU_ERROR_INVALID_PARAM, none, false⟩
  else
    let v := if value < 0 then 0 else if 1 < value then 1 else value
    let pid := s.parameter_ids.getD index 0
    let go : AUParamInfo → Bool → AUSetResult := fun info live =>
      let raw := info.minValue + v * (info.maxValue - info.minValue)
      let st := env.setStatus pid raw
      if st ≠ 0 then ⟨RACK_AU_ERROR_AUDIO_UNIT + st, some raw, live⟩
      else ⟨RACK_AU_OK, some raw, live⟩
    match s.parameter_info with
    | some cache => go (cache.getD index ⟨0, 0, 0, 0⟩) false
    | none =>
      match env.liveInfoAt pid with
      | .error st => ⟨RACK_AU_ERROR_AUDIO_UNIT + st, none, true⟩
      | .ok info => go info true

/-- Result of rack_au_plugin_parameter_info: return code, the descriptor
reported to the caller, and whether it came from a live query. -/
structure AUInfoResult where
  ret : Int
  info : Option AUParamInfo
  liveQueried : Bool
deriving Repr, DecidableEq

/-- rack_au_plugin_parameter_info (au_instance.cpp:806-884), out-pointers
assumed non-null; the name and unit strings are not modeled. -/
def au_parameter_info (s : AUState) (env : AUAccessEnv) (index : Nat) : AUInfoResult :=
  if ¬ s.initialized then ⟨RACK_AU_ERROR_NOT_INITIALIZED, none, false⟩
  else if s.parameter_ids.length ≤ index then ⟨RACK_AU_ERROR_INVALID_PARAM, none, false⟩
  else
    let pid := s.parameter_ids.getD index 0
    match s.parameter_info with
    | some cache => ⟨RACK_AU_OK, some (cache.getD index ⟨0, 0, 0, 0⟩), false⟩
    | none =>
      match env.liveInfoAt pid with
      | .error st => ⟨RACK_AU_ERROR_AUDIO_UNIT + st, none, true⟩
      | .ok info => ⟨RACK_AU_OK, some info, true⟩

-- ============================================================================
-- VST3 backend state and lifecycle (vst3_instance.cpp)
-- ============================================================================

/-- Raw Vst::ParameterInfo fields read by the adapter when building its cache:
the ParamID, title and units (after UTF-16 conversion) and the default
normalized value. -/
structure VstRawParamInfo where
  id : Nat
  title : String
  units : String
  defaultNormalizedValue : ℚ
deriving Repr, DecidableEq

/-- Cached entry of RackVST3Plugin::ParameterInfo.  The code fixes min_value
to 0 and max_value to 1 because VST3 parameters are already normalized. -/
structure VstParamInfo where
  id : Nat
  title : String
  units : String
  min_value : ℚ
  max_value : ℚ
  default_value : ℚ
deriving Repr, DecidableEq

/-- Cached entry of RackVST3Plugin::PresetInfo. -/
structure VstPresetInfo where
  program_list_id : Int
  program_index : Int
  name : String
deriving Repr, DecidableEq

/-- Fields of struct RackVST3Plugin that the embedded operations read or
write.  The four per-block queues are the ParameterChanges and EventList
members; parameter changes are recorded as (ParamID, normalized value)
points. -/
structure VST3State where
  initialized : Bool
  sample_rate : ℚ
  max_block_size : Nat
  num_input_channels : Nat
  num_output_channels : Nat
  parameters : List VstParamInfo
  presets : List VstPresetInfo
  input_events : List VstEvent
  input_param_changes : List (Nat × ℚ)
  output_events : List VstEvent
  output_param_changes : List (Nat × ℚ)
deriving Repr, DecidableEq

/-- Outcomes of the native calls rack_vst3_plugin_initialize makes:
setupProcessing, getBusCount/getBusInfo for the main buses, setActive,
setProcessing, getParameterCount/getParameterInfo on the controller, and the
preset list enumerated through IUnitInfo (empty when unavailable). -/
structure VST3InitEnv where
  setupOK : Bool
  numInputBuses : Nat
  numOutputBuses : Nat
  inputBusChannels : Option Nat
  outputBusChannels : Option Nat
  setActiveOK : Bool
  setProcessingOK : Bool
  hasController : Bool
  paramCount : Nat
  paramInfoAt : Nat → Option VstRawParamInfo
  unitPresets : List VstPresetInfo

/-- Conversion of one raw descriptor into the cache entry
(vst3_instance.cpp:468-480). -/
def vst3_cache_entry (r : VstRawParamInfo) : VstParamInfo :=
  ⟨r.id, r.title, r.units, 0, 1, r.defaultNormalizedValue⟩

/-- Parameter-cache loop of rack_vst3_plugin_initialize
(vst3_instance.cpp:465-482): the index runs from i to i + remaining - 1 and a
parameter whose getParameterInfo call fails is silently skipped, leaving a
partial cache. -/
def vst3_build_params (f : Nat → Option VstRawParamInfo) : Nat → Nat → List VstParamInfo
  | _, 0 => []
  | i, n + 1 =>
    match f i with
    | some r => vst3_cache_entry r :: vst3_build_params f (i + 1) n
    | none => vst3_build_params f (i + 1) n

/-- rack_vst3_plugin_initialize (vst3_instance.cpp:403-509).  There is no
already-initialized guard: every call renegotiates with its arguments.  The
preset list is appended to without being cleared. -/
def vst3_init (s : VST3State) (env : VST3InitEnv) (sample_rate : ℚ) (max_block_size : Nat) :
    Int × VST3State :=
  let s1 := { s with sample_rate := sample_rate, max_block_size := max_block_size }
  if ¬ env.setupOK then (RACK_VST3_ERROR_GENERIC, s1)
  else
    let s2 :=
      if 0 < env.numInputBuses then
        match env.inputBusChannels with
        | some c => { s1 with num_input_channels := c }
        | none => s1
      else s1
    let s3 :=
      if 0 < env.numOutputBuses then
        match env.outputBusChannels with
        | some c => { s2 with num_output_channels := c }
        | none => s2
      else s2
    if ¬ env.setActiveOK then (RACK_VST3_ERROR_GENERIC, s3)
    else if ¬ env.setProcessingOK then (RACK_VST3_ERROR_GENERIC, s3)
    else
      let params :=
        if env.hasController then vst3_build_params env.paramInfoAt 0 env.paramCount
        else s3.parameters
      (RACK_VST3_OK,
        { s3 with parameters := params,
                  presets := s3.presets ++ env.unitPresets,
                  initialized := true })

/-- Result of rack_vst3_plugin_process: return code, successor state, and
whether processor->process was reached (false on every validation failure). -/
structure VstProcResult where
  ret : Int
  state : VST3State
  nativeCalled : Bool
deriving Repr, DecidableEq

/-- rack_vst3_plugin_process (vst3_instance.cpp:548-614).  processOK is the
native result; the pointer flags model non-null caller arrays.  There is no
frames = 0 check.  All four queues are cleared after the native call even
when it fails; validation failures return before the queues are touched. -/
def vst3_process (s : VST3State) (processOK : Bool)
    (inputsNonNull : Bool) (num_input_channels : Nat)
    (outputsNonNull : Bool) (num_output_channels : Nat) (frames : Nat) : VstProcResult :=
  if ¬ s.initialized then ⟨RACK_VST3_ERROR_NOT_INITIALIZED, s, false⟩
  else if num_input_channels ≠ s.num_input_channels then
    ⟨RACK_VST3_ERROR_INVALID_PARAM, s, false⟩
  else if num_output_channels ≠ s.num_output_channels then
    ⟨RACK_VST3_ERROR_INVALID_PARAM, s, false⟩
  else if s.max_block_size < frames then ⟨RACK_VST3_ERROR_INVALID_PARAM, s, false⟩
  else if 0 < num_input_channels ∧ ¬ inputsNonNull then
    ⟨RACK_VST3_ERROR_INVALID_PARAM, s, false⟩
  else if 0 < num_output_channels ∧ ¬ outputsNonNull then
    ⟨RACK_VST3_ERROR_INVALID_PARAM, s, false⟩
  else
    ⟨if processOK then RACK_VST3_OK else RACK_VST3_ERROR_GENERIC,
     { s with input_events := [], input_param_changes := [],
              output_events := [], output_param_changes := [] },
     true⟩

/-- Result of rack_vst3_plugin_get_parameter: return code and the value
written through the out pointer.  The descriptor always comes from the cache;
there is no live-query fallback in this backend. -/
structure VstGetResult where
  ret : Int
  value : Option ℚ
deriving Repr, DecidableEq

/-- rack_vst3_plugin_get_parameter (vst3_instance.cpp:627-641).
controllerValue gives getParamNormalized per ParamID; valueNonNull models the
out pointer. -/
def vst3_get_parameter (s : VST3State) (controllerValue : Nat → ℚ)
    (valueNonNull : Bool) (index : Nat) : VstGetResult :=
  if ¬ valueNonNull then ⟨RACK_VST3_ERROR_INVALID_PARAM, none⟩
  else if s.parameters.length ≤ index then ⟨RACK_VST3_ERROR_INVALID_PARAM, none⟩
  else
    let pid := (s.parameters.getD index ⟨0, "", "", 0, 1, 0⟩).id
    ⟨RACK_VST3_OK, some (controllerValue pid)⟩

-- ============================================================================
-- VST3 state blob (MemoryStream, get_state_size / get_state / set_state)
-- ============================================================================

/-- MemoryStream (vst3_instance.cpp:122-216): a growable byte buffer with a
cursor.  Positions stay within [0, size] on every path exercised here. -/
structure MemStream where
  buffer : List Nat
  pos : Nat
deriving Repr, DecidableEq

/-- MemoryStream::write: grows the buffer when the write reaches past its end,
then overwrites at the cursor and advances it. -/
def MemStream.write (s : MemStream) (bs : List Nat) : MemStream :=
  let buf :=
    if s.buffer.length < s.pos + bs.length then
      s.buffer ++ List.replicate (s.pos + bs.length - s.buffer.length) 0
    else s.buffer
  ⟨buf.take s.pos ++ bs ++ buf.drop (s.pos + bs.length), s.pos + bs.length⟩

/-- Result of MemoryStream::read: the bytes delivered, the stream afterwards,
and whether the full requested count was available (kResultOk). -/
structure ReadResult where
  bytes : List Nat
  stream : MemStream
  ok : Bool
deriving Repr, DecidableEq

/-- MemoryStream::read: delivers min(requested, available) bytes from the
cursor and reports kResultOk exactly when the full count was read. -/
def MemStream.readBytes (s : MemStream) (n : Nat) : ReadResult :=
  let toRead := min n (s.buffer.length - s.pos)
  ⟨(s.buffer.drop s.pos).take toRead, ⟨s.buffer, s.pos + toRead⟩, toRead == n⟩

/-- Little-endian byte image of a uint32 size marker as memcpy lays it out on
the target platforms. -/
def u32le (n : Nat) : List Nat :=
  [n % 256, n / 256 % 256, n / 65536 % 256, n / 16777216 % 256]

/-- rack_vst3_plugin_get_state_size (vst3_instance.cpp:898-902): the plugin
argument, null or not, initialized or not, is ignored entirely and a constant
1 MB hint is returned. -/
def vst3_get_state_size (_plugin : Option VST3State) : Int := 1024 * 1024

/-- Outcomes of the native calls rack_vst3_plugin_get_state makes: whether
component->getState succeeds and the bytes it serializes, whether a separate
controller exists, and the same for controller->getState. -/
structure VstGetStateEnv where
  componentOK : Bool
  engineBytes : List Nat
  hasSeparateController : Bool
  controllerOK : Bool
  controllerBytes : List Nat

/-- Result of rack_vst3_plugin_get_state: return code, bytes copied into the
caller buffer (none when nothing was copied), and the value left in the size
out-parameter. -/
structure GetStateResult where
  ret : Int
  data : Option (List Nat)
  size : Nat
deriving Repr, DecidableEq

/-- rack_vst3_plugin_get_state (vst3_instance.cpp:904-954).  The component
state is serialized first, the stream cursor (tell) is appended as a u32
marker, then the controller state when a separate controller exists.  When
the caller buffer is smaller than the serialized state the required size is
written back and INVALID_PARAM returned. -/
def vst3_get_state (env : VstGetStateEnv) (dataNonNull : Bool) (bufSize : Nat) :
    GetStateResult :=
  if ¬ dataNonNull then ⟨RACK_VST3_ERROR_INVALID_PARAM, none, bufSize⟩
  else if bufSize = 0 then ⟨RACK_VST3_ERROR_INVALID_PARAM, none, bufSize⟩
  else if ¬ env.componentOK then ⟨RACK_VST3_ERROR_GENERIC, none, bufSize⟩
  else
    let st1 := (MemStream.mk [] 0).write env.engineBytes
    let st2 := st1.write (u32le st1.pos)
    if env.hasSeparateController ∧ ¬ env.controllerOK then
      ⟨RACK_VST3_ERROR_GENERIC, none, bufSize⟩
    else
      let st3 := if env.hasSeparateController then st2.write env.controllerBytes else st2
      if bufSize < st3.buffer.length then
        ⟨RACK_VST3_ERROR_INVALID_PARAM, none, st3.buffer.length⟩
      else ⟨RACK_VST3_OK, some st3.buffer, st3.buffer.length⟩

/-- Result of rack_vst3_plugin_set_state: return code and the stream suffix
handed to controller->setState (none when controller restoration was never
attempted). -/
structure SetStateResult where
  ret : Int
  controllerFed : Option (List Nat)
deriving Repr, DecidableEq

/-- rack_vst3_plugin_set_state (vst3_instance.cpp:956-992).  The native
component consumes componentConsumes bytes from the stream start while
restoring; with a separate controller the 4-byte marker is then read and, if
fully available, the controller restores from the bytes that follow.  A
missing marker skips controller restoration and still returns OK. -/
def vst3_set_state (hasSeparateController : Bool) (componentConsumes : Nat)
    (componentOK controllerOK : Bool) (data : Option (List Nat)) : SetStateResult :=
  match data with
  | none => ⟨RACK_VST3_ERROR_INVALID_PARAM, none⟩
  | some bytes =>
    if bytes.length = 0 then ⟨RACK_VST3_ERROR_INVALID_PARAM, none⟩
    else
      let st0 : MemStream := ⟨bytes, 0⟩
      let st1 := (st0.readBytes componentConsumes).stream
      if ¬ componentOK then ⟨RACK_VST3_ERROR_GENERIC, none⟩
      else if hasSeparateController then
        let r := st1.readBytes 4
        if r.ok then
          let fed := r.stream.buffer.drop r.stream.pos
          if controllerOK then ⟨RACK_VST3_OK, some fed⟩
          else ⟨RACK_VST3_ERROR_GENERIC, some fed⟩
        else ⟨RACK_VST3_OK, none⟩
      else ⟨RACK_VST3_OK, none⟩

-- ============================================================================
-- Derived definitions used by the theorems
-- ============================================================================

/-- Bytes one event contributes to a MusicDeviceMIDIEvent call when the AU
loop forwards it. -/
def au_translate (e : MidiEvent) : AUForwarded :=
  ⟨au_midi_status e, e.data1, e.data2, e.sample_offset⟩

/-- Clamp to the unit interval, the reference form used to compare the code
against the specified parameter mapping. -/
def clamp01 (x : ℚ) : ℚ := max 0 (min 1 x)

-- ============================================================================
-- Helper lemmas
-- ============================================================================

/-- With every MusicDeviceMIDIEvent call succeeding, the AU event loop stops
at the first channel message whose channel exceeds 15, returns INVALID_PARAM,
and has already forwarded exactly the events before it. -/
theorem au_send_midi_loop_first_bad (evs : List MidiEvent) (idx : Nat) (acc : List AUForwarded)
    (hbad : ∃ e ∈ evs, au_event_ok e = false) :
    au_send_midi_loop (fun _ => 0) evs idx acc =
      (RACK_AU_ERROR_INVALID_PARAM, acc ++ (evs.takeWhile au_event_ok).map au_translate) := by
  induction evs generalizing idx acc with
  | nil => rcases hbad with ⟨e, he, _⟩; cases he
  | cons e rest ih =>
    rcases hbad with ⟨b, hb, hbf⟩
    by_cases h1 : 0xF0 ≤ e.status
    · have hok : au_event_ok e = true := by simp [au_event_ok, h1]
      have hbadr : ∃ x ∈ rest, au_event_ok x = false := by
        rcases List.mem_cons.mp hb with rfl | hr
        · rw [hok] at hbf; cases hbf
        · exact ⟨b, hr, hbf⟩
      rw [au_send_midi_loop, if_pos h1]
      simp only [ne_eq, not_true_eq_false, if_false, reduceIte]
      rw [ih _ _ hbadr, List.takeWhile_cons, hok]
      simp [au_translate, au_midi_status, h1, List.append_assoc]
    · by_cases h2 : 15 < e.channel
      · have hko : au_event_ok e = false := by
          simp [au_event_ok, h1, h2, Nat.not_le.mpr h2, Nat.not_le]
        rw [au_send_midi_loop, if_neg h1, if_pos h2, List.takeWhile_cons, hko]
        simp
      · have hok : au_event_ok e = true := by
          simp [au_event_ok, h1, Nat.not_lt.mp h2]
        have hbadr : ∃ x ∈ rest, au_event_ok x = false := by
          rcases List.mem_cons.mp hb with rfl | hr
          · rw [hok] at hbf; cases hbf
          · exact ⟨b, hr, hbf⟩
        rw [au_send_midi_loop, if_neg h1, if_neg h2]
        simp only [ne_eq, not_true_eq_false, if_false, reduceIte]
        rw [ih _ _ hbadr, List.takeWhile_cons, hok]
        simp [au_translate, au_midi_status, h1, List.append_assoc]

/-- The VST3 event loop appends the translations of its argument list to the
queue, in order, skipping only events the switch has no case for. -/
theorem vst3_send_midi_loop_eq (evs : List MidiEvent) (q : List VstEvent) :
    vst3_send_midi_loop evs q = q ++ evs.filterMap vst3_translate := by
  induction evs generalizing q with
  | nil => simp [vst3_send_midi_loop]
  | cons e rest ih =>
    rw [vst3_send_midi_loop]
    cases h : vst3_translate e with
    | none => simp [ih, h]
    | some v => simp [ih, h]

-- ============================================================================
-- Claim C1 — MIDI channel validation
-- ============================================================================

/-- Claim C1 counterexample: the VST3 backend performs no channel validation
at all.  A single Note On with channel 16 makes rack_vst3_plugin_send_midi
return OK — not INVALID_PARAM — and the internal input event queue gains the
event, with the out-of-range channel stored verbatim. -/
theorem claim1_counterexample :
    vst3_send_midi (some [⟨0, 0x90, 60, 100, 16⟩]) 1 [] =
      (RACK_VST3_OK, [VstEvent.noteOn 16 60 (100 / 127) 0]) ∧
    RACK_VST3_OK ≠ RACK_VST3_ERROR_INVALID_PARAM := by
  refine ⟨?_, by decide⟩
  have h144 : (144 &&& 240 : Nat) = 144 := by decide
  simp [vst3_send_midi, vst3_send_midi_loop, vst3_translate, h144]

/-- Claim C1 as amended: in the AU backend a batch containing a channel
message with channel > 15 does fail with INVALID_PARAM, but validation is
per-event, not all-or-nothing — every event before the first offending one
has already been forwarded to the plugin by the time the call fails.  In the
VST3 backend the call performs no channel validation: it returns OK and
queues each translated event, out-of-range channel included. -/
theorem claim1_amended (evs : List MidiEvent) (q : List VstEvent)
    (hbad : ∃ e ∈ evs, au_event_ok e = false) :
    au_send_midi (fun _ => 0) true (some evs) evs.length =
      (RACK_AU_ERROR_INVALID_PARAM, (evs.takeWhile au_event_ok).map au_translate) ∧
    vst3_send_midi (some evs) evs.length q =
      (RACK_VST3_OK, q ++ evs.filterMap vst3_translate) := by
  constructor
  · have hne : evs ≠ [] := by
      rcases hbad with ⟨e, he, _⟩
      exact List.ne_nil_of_mem he
    rw [au_send_midi]
    simp only [not_true_eq_false, if_false, reduceIte]
    have hlen : evs.length ≠ 0 := by simpa using hne
    rw [if_neg (by simp [hlen]), if_neg hlen]
    rw [Option.getD, List.take_length]
    simpa using au_send_midi_loop_first_bad evs 0 [] hbad
  · rw [vst3_send_midi]
    rw [List.take_length, vst3_send_midi_loop_eq]

/-- Claim C1 witness: a concrete two-event AU batch whose second event is a
channel message on channel 16 — the call fails with INVALID_PARAM yet the
first event has already been forwarded; the same batch on VST3 returns OK and
queues both events. -/
theorem claim1_witness :
    (∃ e ∈ [MidiEvent.mk 0 0x90 60 100 0, MidiEvent.mk 0 0x90 64 100 16],
        au_event_ok e = false) ∧
    au_send_midi (fun _ => 0) true
        (some [MidiEvent.mk 0 0x90 60 100 0, MidiEvent.mk 0 0x90 64 100 16]) 2 =
      (RACK_AU_ERROR_INVALID_PARAM, [⟨0x90, 60, 100, 0⟩]) := by
  constructor
  · exact ⟨MidiEvent.mk 0 0x90 64 100 16, by simp, by decide⟩
  · have h := (claim1_amended
      [MidiEvent.mk 0 0x90 60 100 0, MidiEvent.mk 0 0x90 64 100 16] []
      ⟨MidiEvent.mk 0 0x90 64 100 16, by simp, by decide⟩).1
    simpa [au_translate, au_midi_status, au_event_ok] using h

-- ============================================================================
-- Claim C8 — empty MIDI batch
-- ============================================================================

/-- Claim C8 counterexample: the AU backend checks initialization before the
empty-batch early return, so send_midi with event_count = 0 on an instance
that was never initialized returns NOT_INITIALIZED, not OK. -/
theorem claim8_counterexample :
    au_send_midi (fun _ => 0) false (some []) 0 = (RACK_AU_ERROR_NOT_INITIALIZED, []) ∧
    RACK_AU_ERROR_NOT_INITIALIZED ≠ RACK_AU_OK := by
  exact ⟨by decide, by decide⟩

/-- Claim C8 as amended: send_midi with event_count = 0 forwards nothing in
either backend, but its return code is not unconditionally OK.  The AU
backend returns OK only on an initialized instance and NOT_INITIALIZED
otherwise; the VST3 backend ignores initialization entirely and returns OK
for any prior state provided the events pointer is non-null, and
INVALID_PARAM for a null pointer even with a zero count. -/
theorem claim8_amended (nativeRes : Nat → Int) (events : Option (List MidiEvent))
    (event_count : Nat) (evs : List MidiEvent) (q : List VstEvent) :
    au_send_midi nativeRes true events 0 = (RACK_AU_OK, []) ∧
    au_send_midi nativeRes false events event_count = (RACK_AU_ERROR_NOT_INITIALIZED, []) ∧
    vst3_send_midi (some evs) 0 q = (RACK_VST3_OK, q) ∧
    vst3_send_midi none event_count q = (RACK_VST3_ERROR_INVALID_PARAM, q) := by
  refine ⟨?_, by simp [au_send_midi], ?_, by simp [vst3_send_midi]⟩
  · rw [au_send_midi]
    simp
  · rw [vst3_send_midi]
    simp [vst3_send_midi_loop]

-- ============================================================================
-- Claim C2 — initialize idempotence
-- ============================================================================

/-- Normal-path characterization of rack_vst3_plugin_initialize: when the
native setup, activation and processing-start calls all succeed the call
returns OK and rewrites the negotiated configuration from its arguments,
appending the enumerated presets to whatever preset list was already
cached. -/
theorem vst3_init_benign (s : VST3State) (env : VST3InitEnv) (sr : ℚ) (mbs : Nat)
    (h1 : env.setupOK = true) (h2 : env.setActiveOK = true) (h3 : env.setProcessingOK = true) :
    vst3_init s env sr mbs =
      (RACK_VST3_OK,
        { s with
            sample_rate := sr, max_block_size := mbs,
            num_input_channels :=
              if 0 < env.numInputBuses then env.inputBusChannels.getD s.num_input_channels
              else s.num_input_channels,
            num_output_channels :=
              if 0 < env.numOutputBuses then env.outputBusChannels.getD s.num_output_channels
              else s.num_output_channels,
            parameters :=
              if env.hasController then vst3_build_params env.paramInfoAt 0 env.paramCount
              else s.parameters,
            presets := s.presets ++ env.unitPresets,
            initialized := true }) := by
  rw [vst3_init]
  by_cases hin : 0 < env.numInputBuses <;>
    by_cases hout : 0 < env.numOutputBuses <;>
      cases hic : env.inputBusChannels <;>
        cases hoc : env.outputBusChannels <;>
          simp [hin, hout, hic, hoc, h1, h2, h3]

/-- Claim C2 as amended: the AU backend is idempotent exactly as claimed — a
second initialize on an initialized instance returns OK immediately with no
state change, whatever its arguments.  The VST3 backend has no such guard: a
repeated initialize also returns OK (when the native calls succeed) but
renegotiates, overwriting the stored sample rate and max block size with the
new arguments and appending the enumerated presets to the existing list a
second time. -/
theorem claim2_amended (s : AUState) (env : AUInitEnv) (sr : ℚ) (mbs : Nat)
    (t : VST3State) (venv : VST3InitEnv) (vsr : ℚ) (vmbs : Nat)
    (hau : s.audio_unit = true) (hinit : s.initialized = true)
    (hsetup : venv.setupOK = true) (hact : venv.setActiveOK = true)
    (hproc : venv.setProcessingOK = true) :
    au_init s env sr mbs = (RACK_AU_OK, s) ∧
    (vst3_init t venv vsr vmbs).1 = RACK_VST3_OK ∧
    (vst3_init t venv vsr vmbs).2.sample_rate = vsr ∧
    (vst3_init t venv vsr vmbs).2.max_block_size = vmbs ∧
    (vst3_init t venv vsr vmbs).2.presets = t.presets ++ venv.unitPresets := by
  refine ⟨by simp [au_init, hau, hinit], ?_, ?_, ?_, ?_⟩ <;>
    rw [vst3_init_benign t venv vsr vmbs hsetup hact hproc]

/-- Claim C2 counterexample: an already-initialized VST3 instance negotiated
at 48000 Hz / 512 frames, re-initialized with different arguments, returns OK
but its negotiated max block size observably changes to 256 — the claimed
absence of renegotiation fails on this backend. -/
theorem claim2_counterexample :
    (vst3_init ⟨true, 48000, 512, 2, 2, [], [], [], [], [], []⟩
        ⟨true, 1, 1, some 2, some 2, true, true, false, 0, fun _ => none, []⟩ 44100 256).1 =
      RACK_VST3_OK ∧
    (vst3_init ⟨true, 48000, 512, 2, 2, [], [], [], [], [], []⟩
        ⟨true, 1, 1, some 2, some 2, true, true, false, 0, fun _ => none, []⟩ 44100 256).2.max_block_size =
      256 ∧
    (256 : Nat) ≠ 512 := by
  refine ⟨rfl, rfl, by decide⟩

/-- Claim C2 witness: instantiation of the amended claim on a concrete
initialized AU instance and a concrete initialized VST3 instance. -/
theorem claim2_witness :
    au_init ⟨true, true, 48000, 512, 0, [7], none⟩ ⟨true, 0, none, true, fun _ => none⟩ 44100 256 =
      (RACK_AU_OK, ⟨true, true, 48000, 512, 0, [7], none⟩) ∧
    (vst3_init ⟨true, 48000, 512, 2, 2, [], [], [], [], [], []⟩
        ⟨true, 1, 1, some 2, some 2, true, true, false, 0, fun _ => none, []⟩ 44100 256).2.presets =
      [] := by
  have h := claim2_amended ⟨true, true, 48000, 512, 0, [7], none⟩ ⟨true, 0, none, true, fun _ => none⟩
    44100 256 ⟨true, 48000, 512, 2, 2, [], [], [], [], [], []⟩
    ⟨true, 1, 1, some 2, some 2, true, true, false, 0, fun _ => none, []⟩ 44100 256
    rfl rfl rfl rfl rfl
  exact ⟨h.1, by simpa using h.2.2.2.2⟩

-- ============================================================================
-- Claim C3 — process validation
-- ============================================================================

/-- Claim C3 counterexample: the VST3 backend has no frames = 0 check.  On an
initialized instance with matching channel counts a zero-frame call is not
rejected with INVALID_PARAM: it reaches the native processor and returns its
result. -/
theorem claim3_counterexample :
    (vst3_process ⟨true, 48000, 512, 2, 2, [], [], [], [], [], []⟩ true true 2 true 2 0).ret =
      RACK_VST3_OK ∧
    (vst3_process ⟨true, 48000, 512, 2, 2, [], [], [], [], [], []⟩ true true 2 true 2 0).nativeCalled =
      true ∧
    RACK_VST3_OK ≠ RACK_VST3_ERROR_INVALID_PARAM := by
  refine ⟨rfl, rfl, by decide⟩

/-- Claim C3 as amended: both backends return NOT_INITIALIZED before a
successful initialize, and both run their validation before any native call
(nativeCalled is false on every rejection).  The AU backend rejects
frames = 0, frames > max_block_size and null buffer pointers with
INVALID_PARAM; the VST3 backend rejects channel counts that differ from the
negotiated ones, frames > max_block_size and missing buffer pointers, but
does not reject frames = 0 — a zero-frame call with otherwise valid
arguments is forwarded to the native processor. -/
theorem claim3_amended (s : AUState) (rs : Int) (inN outN : Bool) (frames : Nat)
    (t : VST3State) (pOK iN : Bool) (nin : Nat) (oN : Bool) (nout vframes : Nat) :
    (s.initialized = false →
      au_process s rs inN outN frames = ⟨RACK_AU_ERROR_NOT_INITIALIZED, s, false⟩) ∧
    (s.initialized = true →
      (frames = 0 ∨ inN = false ∨ outN = false ∨ s.max_block_size < frames) →
      au_process s rs inN outN frames = ⟨RACK_AU_ERROR_INVALID_PARAM, s, false⟩) ∧
    (t.initialized = false →
      vst3_process t pOK iN nin oN nout vframes = ⟨RACK_VST3_ERROR_NOT_INITIALIZED, t, false⟩) ∧
    (t.initialized = true →
      (nin ≠ t.num_input_channels ∨ nout ≠ t.num_output_channels ∨
        t.max_block_size < vframes ∨ (0 < nin ∧ iN = false) ∨ (0 < nout ∧ oN = false)) →
      vst3_process t pOK iN nin oN nout vframes = ⟨RACK_VST3_ERROR_INVALID_PARAM, t, false⟩) ∧
    (t.initialized = true → nin = t.num_input_channels → nout = t.num_output_channels →
      vframes ≤ t.max_block_size → (0 < nin → iN = true) → (0 < nout → oN = true) →
      (vst3_process t pOK iN nin oN nout vframes).nativeCalled = true) := by
  refine ⟨?_, ?_, ?_, ?_, ?_⟩
  · intro h
    simp [au_process, h]
  · intro h hd
    rw [au_process, if_neg (by simp [h])]
    by_cases hio : ¬ (inN = true) ∨ ¬ (outN = true) ∨ frames = 0
    · rw [if_pos hio]
    · rw [if_neg hio, if_pos ?_]
      rcases hd with h0 | hi | ho | hm
      · exact absurd (Or.inr (Or.inr h0)) hio
      · exact absurd (Or.inl (by simp [hi])) hio
      · exact absurd (Or.inr (Or.inl (by simp [ho]))) hio
      · exact hm
  · intro h
    simp [vst3_process, h]
  · intro h hd
    rw [vst3_process, if_neg (by simp [h])]
    by_cases c1 : nin ≠ t.num_input_channels
    · rw [if_pos c1]
    · rw [if_neg c1]
      by_cases c2 : nout ≠ t.num_output_channels
      · rw [if_pos c2]
      · rw [if_neg c2]
        by_cases c3 : t.max_block_size < vframes
        · rw [if_pos c3]
        · rw [if_neg c3]
          by_cases c4 : 0 < nin ∧ ¬ (iN = true)
          · rw [if_pos c4]
          · rw [if_neg c4, if_pos ?_]
            rcases hd with d1 | d2 | d3 | d4 | d5
            · exact absurd d1 c1
            · exact absurd d2 c2
            · exact absurd d3 c3
            · exact absurd ⟨d4.1, by simp [d4.2]⟩ c4
            · exact ⟨d5.1, by simp [d5.2]⟩
  · intro h h1 h2 h3 h4 h5
    rw [vst3_process, if_neg (by simp [h]), if_neg (by simp [h1]), if_neg (by simp [h2]),
        if_neg (by simp; omega), if_neg ?_, if_neg ?_]
    · intro ⟨hp, hq⟩
      exact hq (h5 hp)
    · intro ⟨hp, hq⟩
      exact hq (h4 hp)

/-- Claim C3 witness: instantiation of the amended claim — an uninitialized
AU call is rejected with NOT_INITIALIZED, an initialized AU call with
frames = 0 is rejected with INVALID_PARAM before the native render, and an
initialized VST3 call with matching channel counts reaches the native
processor. -/
theorem claim3_witness :
    au_process ⟨true, false, 0, 0, 0, [], none⟩ 0 true true 64 =
      ⟨RACK_AU_ERROR_NOT_INITIALIZED, ⟨true, false, 0, 0, 0, [], none⟩, false⟩ ∧
    au_process ⟨true, true, 48000, 512, 0, [], none⟩ 0 true true 0 =
      ⟨RACK_AU_ERROR_INVALID_PARAM, ⟨true, true, 48000, 512, 0, [], none⟩, false⟩ ∧
    (vst3_process ⟨true, 48000, 512, 2, 2, [], [], [], [], [], []⟩ true true 2 true 2 64).nativeCalled =
      true := by
  refine ⟨?_, ?_, ?_⟩
  · exact (claim3_amended ⟨true, false, 0, 0, 0, [], none⟩ 0 true true 64
      ⟨true, 48000, 512, 2, 2, [], [], [], [], [], []⟩ true true 2 true 2 64).1 rfl
  · exact (claim3_amended ⟨true, true, 48000, 512, 0, [], none⟩ 0 true true 0
      ⟨true, 48000, 512, 2, 2, [], [], [], [], [], []⟩ true true 2 true 2 64).2.1 rfl (Or.inl rfl)
  · exact (claim3_amended ⟨true, true, 48000, 512, 0, [], none⟩ 0 true true 0
      ⟨true, 48000, 512, 2, 2, [], [], [], [], [], []⟩ true true 2 true 2 64).2.2.2.2 rfl rfl rfl
      (by decide) (fun _ => rfl) (fun _ => rfl)

-- ============================================================================
-- Claim C7 — sample-position counter
-- ============================================================================

/-- Initialization never touches the AU sample-position counter: every branch
of rack_au_plugin_initialize leaves sample_position as it found it. -/
theorem au_init_sample_position (s : AUState) (env : AUInitEnv) (sr : ℚ) (mbs : Nat) :
    (au_init s env sr mbs).2.sample_position = s.sample_position := by
  rw [au_init]
  by_cases h1 : s.audio_unit = true
  · by_cases h2 : s.initialized = true
    · simp [h1, h2]
    · cases hp : env.paramList <;>
        by_cases h3 : env.allocOK = true <;>
          by_cases h4 : env.auInitStatus = 0 <;>
            by_cases h5 : env.infoAllocOK = true <;>
              simp [h1, h2, h3, h4, h5, hp]
  · simp [h1]

/-- Claim C7 counterexample: the VST3 backend maintains no sample-position
counter at all.  No function of the modeled instance state (which carries
every field of struct RackVST3Plugin the operations touch) can advance by
exactly frames on each successful process call, because a successful call
with empty queues leaves the state identical to what it was: the required
equation forces f s = f s + 512 at a concrete instance. -/
theorem claim7_counterexample :
    ¬ ∃ f : VST3State → Int,
      ∀ (t : VST3State) (pOK iN : Bool) (nin : Nat) (oN : Bool) (nout frames : Nat),
        (vst3_process t pOK iN nin oN nout frames).ret = RACK_VST3_OK →
        f (vst3_process t pOK iN nin oN nout frames).state = f t + frames := by
  rintro ⟨f, hf⟩
  have h := hf ⟨true, 48000, 512, 0, 0, [], [], [], [], [], []⟩ true true 0 true 0 512 rfl
  rw [show (vst3_process ⟨true, 48000, 512, 0, 0, [], [], [], [], [], []⟩
        true true 0 true 0 512).state =
      ⟨true, 48000, 512, 0, 0, [], [], [], [], [], []⟩ from rfl] at h
  omega

/-- Claim C7 as amended: only the AU backend maintains the sample-position
counter.  There it behaves exactly as claimed: a process call that reaches a
successful native render returns OK and advances sample_position by exactly
frames; every failing or rejected call leaves it unchanged; no call decreases
it; and initialize never touches it.  The VST3 backend keeps no such counter:
its process either leaves the instance state untouched (validation failure)
or merely clears the four per-block queues. -/
theorem claim7_amended (s : AUState) (rs : Int) (inN outN : Bool) (frames : Nat)
    (env : AUInitEnv) (sr : ℚ) (mbs : Nat)
    (t : VST3State) (pOK iN : Bool) (nin : Nat) (oN : Bool) (nout vframes : Nat) :
    ((au_process s rs inN outN frames).nativeCalled = true → rs = 0 →
      (au_process s rs inN outN frames).ret = RACK_AU_OK ∧
      (au_process s rs inN outN frames).state.sample_position = s.sample_position + frames) ∧
    (rs ≠ 0 ∨ (au_process s rs inN outN frames).nativeCalled = false →
      (au_process s rs inN outN frames).state.sample_position = s.sample_position) ∧
    s.sample_position ≤ (au_process s rs inN outN frames).state.sample_position ∧
    (au_init s env sr mbs).2.sample_position = s.sample_position ∧
    ((vst3_process t pOK iN nin oN nout vframes).state = t ∨
      (vst3_process t pOK iN nin oN nout vframes).state =
        { t with input_events := [], input_param_changes := [],
                 output_events := [], output_param_changes := [] }) := by
  refine ⟨?_, ?_, ?_, au_init_sample_position s env sr mbs, ?_⟩
  · intro hn hrs
    rw [au_process] at hn ⊢
    split_ifs at hn ⊢ with g1 g2 g3 g4
    · exact absurd hrs g4
    · exact ⟨rfl, rfl⟩
  · intro hd
    rw [au_process] at hd ⊢
    split_ifs at hd ⊢ with g1 g2 g3 g4
    all_goals try rfl
    rcases hd with h | h
    · exact absurd h g4
    · exact h.elim
  · rw [au_process]
    split_ifs <;> simp
  · rw [vst3_process]
    split_ifs <;> simp

/-- Claim C7 witness: a concrete initialized AU instance at sample position
100 processing 64 frames with a successful native render lands at exactly
164. -/
theorem claim7_witness :
    (au_process ⟨true, true, 48000, 512, 100, [], none⟩ 0 true true 64).ret = RACK_AU_OK ∧
    (au_process ⟨true, true, 48000, 512, 100, [], none⟩ 0 true true 64).state.sample_position =
      164 := by
  have h := (claim7_amended ⟨true, true, 48000, 512, 100, [], none⟩ 0 true true 64
    ⟨true, 0, none, true, fun _ => none⟩ 48000 512
    ⟨true, 48000, 512, 0, 0, [], [], [], [], [], []⟩ true true 0 true 0 512).1 rfl rfl
  refine ⟨h.1, ?_⟩
  rw [h.2]
  decide

-- ============================================================================
-- Claim C9 — per-block queue consumption
-- ============================================================================

/-- Claim C9 counterexample: a process call rejected by validation returns
without clearing anything.  On an initialized instance holding one queued
event, a call with a wrong input channel count returns INVALID_PARAM and the
input event queue still holds the event — so not every process call clears
the queues before returning. -/
theorem claim9_counterexample :
    (vst3_process ⟨true, 48000, 512, 2, 2, [], [], [VstEvent.noteOn 0 60 1 0], [], [], []⟩
        true true 3 true 2 64).ret = RACK_VST3_ERROR_INVALID_PARAM ∧
    (vst3_process ⟨true, 48000, 512, 2, 2, [], [], [VstEvent.noteOn 0 60 1 0], [], [], []⟩
        true true 3 true 2 64).state.input_events ≠ [] := by
  exact ⟨rfl, by decide⟩

/-- Claim C9 as amended: every process call that reaches the native processor
clears the input event queue and input parameter-change queue before
returning, even when the native processor fails — so a queued event is
delivered to at most one process call.  A call rejected by validation,
however, forwards nothing and leaves the instance state (queues included)
untouched, rather than clearing it. -/
theorem claim9_amended (t : VST3State) (pOK iN : Bool) (nin : Nat) (oN : Bool)
    (nout frames : Nat) :
    ((vst3_process t pOK iN nin oN nout frames).nativeCalled = true →
      (vst3_process t pOK iN nin oN nout frames).state.input_events = [] ∧
      (vst3_process t pOK iN nin oN nout frames).state.input_param_changes = []) ∧
    ((vst3_process t pOK iN nin oN nout frames).nativeCalled = false →
      (vst3_process t pOK iN nin oN nout frames).state = t) := by
  rw [vst3_process]
  split_ifs <;> simp

/-- Claim C9 witness: a concrete initialized instance with one queued event
and one queued parameter change, processed with a failing native processor,
still comes back with both input queues empty. -/
theorem claim9_witness :
    (vst3_process ⟨true, 48000, 512, 2, 2, [], [], [VstEvent.noteOn 0 60 1 0], [(1, 1/2)], [], []⟩
        false true 2 true 2 64).state.input_events = [] ∧
    (vst3_process ⟨true, 48000, 512, 2, 2, [], [], [VstEvent.noteOn 0 60 1 0], [(1, 1/2)], [], []⟩
        false true 2 true 2 64).state.input_param_changes = [] := by
  exact (claim9_amended ⟨true, 48000, 512, 2, 2, [], [], [VstEvent.noteOn 0 60 1 0], [(1, 1/2)], [], []⟩
    false true 2 true 2 64).1 rfl

-- ============================================================================
-- Claim C4 — parameter descriptor cache
-- ============================================================================

/-- Cache construction in the AU backend invalidates the whole cache whenever
any single per-parameter info query fails. -/
theorem au_build_info_cache_none (g : Nat → Option AUParamInfo) (ids : List Nat)
    (hbad : ∃ i ∈ ids, g i = none) :
    au_build_info_cache g ids = none := by
  induction ids with
  | nil => rcases hbad with ⟨i, hi, _⟩; cases hi
  | cons a rest ih =>
    rcases hbad with ⟨i, hi, hgi⟩
    rw [au_build_info_cache]
    rcases List.mem_cons.mp hi with rfl | hr
    · rw [hgi]
    · cases hga : g a
      · rfl
      · rw [ih ⟨i, hr, hgi⟩]

/-- Cache construction in the VST3 backend keeps exactly the parameters whose
info query succeeded, in index order: failures are skipped, leaving a partial
cache rather than an invalidated one. -/
theorem vst3_build_params_eq (f : Nat → Option VstRawParamInfo) (i n : Nat) :
    vst3_build_params f i n =
      (List.range' i n).filterMap (fun j => (f j).map vst3_cache_entry) := by
  induction n generalizing i with
  | zero => rfl
  | succ m ih =>
    rw [vst3_build_params, List.range'_succ, List.filterMap_cons]
    cases hf : f i with
    | none =>
      simp only [hf, Option.map_none']
      exact ih (i + 1)
    | some r =>
      simp only [hf, Option.map_some']
      rw [ih (i + 1)]

/-- Claim C4 as amended: in the AU backend the cache really is all-or-nothing
— if any per-parameter descriptor query fails during initialize, the whole
parameter_info cache ends up null (while the id list is kept), and every
subsequent get, set or describe call performs a live per-call descriptor
query.  In the VST3 backend there is no such invalidation and no live
fallback: a parameter whose descriptor query fails at initialize is silently
dropped, the surviving descriptors stay cached (a partial cache), and all
later accesses read that partial cache. -/
theorem claim4_amended (s : AUState) (env : AUInitEnv) (sr : ℚ) (mbs : Nat)
    (ids : List Nat) (s2 : AUState) (env2 : AUAccessEnv) (index : Nat) (v : ℚ)
    (f : Nat → Option VstRawParamInfo) (i n : Nat)
    (hau : s.audio_unit = true) (hninit : s.initialized = false)
    (halloc : env.allocOK = true) (hst : env.auInitStatus = 0)
    (hlist : env.paramList = some ids) (hinfo : env.infoAllocOK = true)
    (hbad : ∃ j ∈ ids, env.paramInfoAt j = none)
    (hinit2 : s2.initialized = true) (hcache2 : s2.parameter_info = none)
    (hidx2 : index < s2.parameter_ids.length) :
    (au_init s env sr mbs).2.parameter_info = none ∧
    (au_init s env sr mbs).2.parameter_ids = ids ∧
    (au_get_parameter s2 env2 index).liveQueried = true ∧
    (au_set_parameter s2 env2 index v).liveQueried = true ∧
    (au_parameter_info s2 env2 index).liveQueried = true ∧
    vst3_build_params f i n =
      (List.range' i n).filterMap (fun j => (f j).map vst3_cache_entry) := by
  have hcache := au_build_info_cache_none env.paramInfoAt ids hbad
  refine ⟨?_, ?_, ?_, ?_, ?_, vst3_build_params_eq f i n⟩
  · rw [au_init]
    simp [hau, hninit, halloc, hst, hlist, hinfo, hcache]
  · rw [au_init]
    simp [hau, hninit, halloc, hst, hlist, hinfo, hcache]
  · rw [au_get_parameter, if_neg (by simp [hinit2]), if_neg (by omega), hcache2]
    dsimp only
    rcases env2.liveInfoAt (s2.parameter_ids.getD index 0) with st | info
    · rfl
    · rcases env2.rawValue (s2.parameter_ids.getD index 0) with st | raw <;> rfl
  · rw [au_set_parameter, if_neg (by simp [hinit2]), if_neg (by omega), hcache2]
    dsimp only
    rcases env2.liveInfoAt (s2.parameter_ids.getD index 0) with st | info
    · rfl
    · dsimp only
      split_ifs <;> rfl
  · rw [au_parameter_info, if_neg (by simp [hinit2]), if_neg (by omega), hcache2]
    dsimp only
    rcases env2.liveInfoAt (s2.parameter_ids.getD index 0) with st | info <;> rfl

/-- Claim C4 counterexample: a VST3 instance whose first parameter fails its
descriptor query during initialize ends up with a one-entry cache — not an
invalidated one — and a later get_parameter at index 0 is served from that
partial cache, reading the surviving descriptor (ParamID 7) and returning
the live controller value for it. -/
theorem claim4_counterexample :
    (vst3_init ⟨false, 0, 0, 0, 0, [], [], [], [], [], []⟩
        ⟨true, 0, 0, none, none, true, true, true, 2,
          fun i => if i = 1 then some ⟨7, "P1", "", 1 / 2⟩ else none, []⟩ 48000 512).2.parameters =
      [⟨7, "P1", "", 0, 1, 1 / 2⟩] ∧
    (vst3_get_parameter
        (vst3_init ⟨false, 0, 0, 0, 0, [], [], [], [], [], []⟩
          ⟨true, 0, 0, none, none, true, true, true, 2,
            fun i => if i = 1 then some ⟨7, "P1", "", 1 / 2⟩ else none, []⟩ 48000 512).2
        (fun pid => if pid = 7 then 1 / 4 else 0) true 0) =
      ⟨RACK_VST3_OK, some (1 / 4)⟩ := by
  constructor
  · rw [vst3_init]
    norm_num [vst3_build_params, vst3_cache_entry]
  · rw [vst3_init]
    norm_num [vst3_build_params, vst3_cache_entry, vst3_get_parameter]

/-- Claim C4 witness: a concrete AU initialize with two parameters where the
second descriptor query fails — the cache comes back null, the id list is
kept, and a get on the resulting degraded instance performs a live query. -/
theorem claim4_witness :
    (au_init ⟨true, false, 0, 0, 0, [], none⟩
        ⟨true, 0, some [3, 4], true,
          fun j => if j = 3 then some ⟨0, 10, 5, 0⟩ else none⟩ 48000 512).2.parameter_info =
      none ∧
    (au_get_parameter ⟨true, true, 48000, 512, 0, [3, 4], none⟩
        ⟨fun _ => .ok ⟨0, 10, 5, 0⟩, fun _ => .ok 5, fun _ _ => 0⟩ 0).liveQueried = true := by
  have h := claim4_amended ⟨true, false, 0, 0, 0, [], none⟩
    ⟨true, 0, some [3, 4], true, fun j => if j = 3 then some ⟨0, 10, 5, 0⟩ else none⟩ 48000 512
    [3, 4] ⟨true, true, 48000, 512, 0, [3, 4], none⟩
    ⟨fun _ => .ok ⟨0, 10, 5, 0⟩, fun _ => .ok 5, fun _ _ => 0⟩ 0 0
    (fun _ => none) 0 0 rfl rfl rfl rfl rfl rfl
    ⟨4, by simp, by norm_num⟩ rfl rfl (by simp)
  exact ⟨h.1, h.2.2.1⟩

-- ============================================================================
-- Claim C5 — parameter normalization math (AU backend)
-- ============================================================================

/-- Nested-if clamping as the C code writes it agrees with clamping to the
unit interval. -/
theorem clamp_ite_eq_clamp01 (v : ℚ) :
    (if v < 0 then 0 else if 1 < v then 1 else v) = clamp01 v := by
  unfold clamp01
  split_ifs with h1 h2
  · rw [min_eq_right (by linarith), max_eq_left (by linarith)]
  · rw [min_eq_left (by linarith), max_eq_right (by linarith)]
  · rw [min_eq_right (by linarith), max_eq_right (by linarith)]

/-- Claim C5 confirmed, for the AU backend whose code the claim cites (the
VST3 backend passes already-normalized values through and has no range
mapping).  For a parameter whose cached descriptor has native range
[min, max] with min ≤ max: get_parameter reads the native value and returns
(native - min) / (max - min) clamped to [0,1], except that when the span
max - min does not exceed the epsilon guard it returns exactly 0 instead of
dividing; set_parameter clamps the supplied normalized value to [0,1] first
and hands the plugin the native value min + v * (max - min). -/
theorem claim5_confirmed (s : AUState) (env : AUAccessEnv) (index : Nat)
    (cache : List AUParamInfo) (info : AUParamInfo) (raw v : ℚ)
    (hinit : s.initialized = true) (hidx : index < s.parameter_ids.length)
    (hcache : s.parameter_info = some cache)
    (hinfo : cache.getD index ⟨0, 0, 0, 0⟩ = info)
    (hraw : env.rawValue (s.parameter_ids.getD index 0) = .ok raw)
    (hrange : info.minValue ≤ info.maxValue) :
    (au_get_parameter s env index).value =
      some (if info.maxValue - info.minValue ≤ au_epsilon then 0
            else clamp01 ((raw - info.minValue) / (info.maxValue - info.minValue))) ∧
    (au_set_parameter s env index v).written =
      some (info.minValue + clamp01 v * (info.maxValue - info.minValue)) := by
  constructor
  · rw [au_get_parameter, if_neg (by simp [hinit]), if_neg (by omega), hcache]
    dsimp only
    rw [hraw]
    dsimp only
    rw [hinfo, au_normalize, if_neg (by rw [not_lt]; exact hrange)]
    dsimp only
    by_cases h : au_epsilon < info.maxValue - info.minValue
    · rw [if_pos h, if_neg (not_le.mpr h), clamp_ite_eq_clamp01]
    · rw [if_neg h, if_pos (not_lt.mp h)]
  · rw [au_set_parameter, if_neg (by simp [hinit]), if_neg (by omega), hcache]
    dsimp only
    rw [hinfo, clamp_ite_eq_clamp01]
    split_ifs <;> rfl

/-- Claim C5 witness: a concrete parameter with native range [0, 10] — a
native value 5 reads back as normalized 1/2, and setting normalized 2 clamps
to 1 and writes native 10. -/
theorem claim5_witness :
    (au_get_parameter ⟨true, true, 48000, 512, 0, [3], some [⟨0, 10, 5, 0⟩]⟩
        ⟨fun _ => .error 1, fun _ => .ok 5, fun _ _ => 0⟩ 0).value = some (1 / 2) ∧
    (au_set_parameter ⟨true, true, 48000, 512, 0, [3], some [⟨0, 10, 5, 0⟩]⟩
        ⟨fun _ => .error 1, fun _ => .ok 5, fun _ _ => 0⟩ 0 2).written = some 10 := by
  have h := claim5_confirmed ⟨true, true, 48000, 512, 0, [3], some [⟨0, 10, 5, 0⟩]⟩
    ⟨fun _ => .error 1, fun _ => .ok 5, fun _ _ => 0⟩ 0 [⟨0, 10, 5, 0⟩] ⟨0, 10, 5, 0⟩ 5 2
    rfl (by simp) rfl rfl rfl (by norm_num)
  constructor
  · rw [h.1]
    norm_num [au_epsilon, clamp01]
  · rw [h.2]
    norm_num [clamp01]

-- ============================================================================
-- Claim C6 — VST3 state blob layout
-- ============================================================================

/-- Writing with the cursor at the end of the buffer appends the bytes. -/
theorem memstream_write_at_end (buf bs : List Nat) :
    (MemStream.mk buf buf.length).write bs = ⟨buf ++ bs, buf.length + bs.length⟩ := by
  rw [MemStream.write]
  by_cases h : buf.length < buf.length + bs.length
  · rw [if_pos h]
    have h2 : buf.length + bs.length - buf.length = bs.length := by omega
    rw [h2]
    have ht : (buf ++ List.replicate bs.length 0).take buf.length = buf :=
      List.take_left' rfl
    have hd : (buf ++ List.replicate bs.length 0).drop (buf.length + bs.length) = [] := by
      apply List.drop_eq_nil_of_le
      simp
    rw [ht, hd, List.append_nil]
  · rw [if_neg h]
    have hbs : bs = [] := List.length_eq_zero.mp (by omega)
    subst hbs
    simp

/-- Writing into a fresh stream leaves exactly the written bytes with the
cursor after them. -/
theorem memstream_write_empty (bs : List Nat) :
    (MemStream.mk [] 0).write bs = ⟨bs, bs.length⟩ := by
  have h := memstream_write_at_end [] bs
  simpa using h

/-- Claim C6 confirmed: for a plugin with a separate controller whose engine
(component) serializes engine bytes and restores by consuming exactly the
bytes it wrote, get_state lays the blob out as
engine bytes ++ u32 marker holding the engine length ++ controller bytes and
reports its exact size; set_state on such a blob consumes the engine bytes,
reads past the 4-byte marker and hands the controller exactly the controller
bytes, returning OK; and set_state on an engine-only blob with no room for a
marker skips controller restoration entirely and still returns OK. -/
theorem claim6_confirmed (engine ctrl : List Nat) (bufSize : Nat)
    (hne : engine ≠ []) (hbuf : engine.length + 4 + ctrl.length ≤ bufSize) :
    vst3_get_state ⟨true, engine, true, true, ctrl⟩ true bufSize =
      ⟨RACK_VST3_OK, some (engine ++ u32le engine.length ++ ctrl),
        engine.length + 4 + ctrl.length⟩ ∧
    vst3_set_state true engine.length true true
        (some (engine ++ u32le engine.length ++ ctrl)) = ⟨RACK_VST3_OK, some ctrl⟩ ∧
    vst3_set_state true engine.length true true (some engine) = ⟨RACK_VST3_OK, none⟩ := by
  have hu4 : (u32le engine.length).length = 4 := rfl
  have hlen2 : (engine ++ u32le engine.length).length = engine.length + 4 := by
    simp [hu4]
  have hlen3 : (engine ++ u32le engine.length ++ ctrl).length =
      engine.length + 4 + ctrl.length := by
    simp [hu4]
    omega
  refine ⟨?_, ?_, ?_⟩
  · rw [vst3_get_state]
    have h0 : bufSize ≠ 0 := by omega
    simp only [not_true_eq_false, if_false, and_false, if_neg h0]
    rw [memstream_write_empty]
    dsimp only
    rw [memstream_write_at_end]
    have hw3 : (MemStream.mk (engine ++ u32le engine.length)
          (engine.length + (u32le engine.length).length)).write ctrl =
        ⟨engine ++ u32le engine.length ++ ctrl, engine.length + 4 + ctrl.length⟩ := by
      rw [hu4, show engine.length + 4 = (engine ++ u32le engine.length).length from hlen2.symm,
        memstream_write_at_end, hlen2]
    rw [hw3]
    simp only [if_true]
    rw [hlen3, if_neg (by omega)]
  · simp only [vst3_set_state, MemStream.readBytes, not_true_eq_false, if_false, if_true,
      reduceIte, Nat.zero_add, Nat.add_zero, Nat.sub_zero]
    rw [if_neg (by rw [hlen3]; omega), hlen3]
    have hm1 : min engine.length (engine.length + 4 + ctrl.length) = engine.length := by omega
    have hm2 : min 4 (engine.length + 4 + ctrl.length - engine.length) = 4 := by omega
    rw [hm1, hm2]
    simp only [beq_self_eq_true, if_true, reduceIte]
    have hdrop : (engine ++ u32le engine.length ++ ctrl).drop (engine.length + 4) = ctrl := by
      apply List.drop_left'
      rw [hlen2]
    rw [hdrop]
  · simp only [vst3_set_state, MemStream.readBytes, not_true_eq_false, if_false, if_true,
      reduceIte, Nat.zero_add, Nat.add_zero, Nat.sub_zero]
    rw [if_neg (by simpa using hne)]
    have hm1 : min engine.length engine.length = engine.length := by omega
    have hm2 : min 4 (engine.length - engine.length) = 0 := by omega
    rw [hm1, hm2]
    simp

/-- Claim C6 witness: engine bytes [1,2,3] and controller byte [9] — the blob
is [1,2,3, 3,0,0,0, 9], restoring it feeds the controller [9], and restoring
the bare engine bytes skips the controller and still succeeds. -/
theorem claim6_witness :
    vst3_get_state ⟨true, [1, 2, 3], true, true, [9]⟩ true 16 =
      ⟨RACK_VST3_OK, some [1, 2, 3, 3, 0, 0, 0, 9], 8⟩ ∧
    vst3_set_state true 3 true true (some [1, 2, 3, 3, 0, 0, 0, 9]) =
      ⟨RACK_VST3_OK, some [9]⟩ ∧
    vst3_set_state true 3 true true (some [1, 2, 3]) = ⟨RACK_VST3_OK, none⟩ := by
  have h := claim6_confirmed [1, 2, 3] [9] 16 (by decide) (by decide)
  refine ⟨?_, ?_, ?_⟩
  · have h1 := h.1
    simpa [u32le] using h1
  · have h2 := h.2.1
    simpa [u32le] using h2
  · exact h.2.2

-- ============================================================================
-- Claim C10 — get_state_size constant and the size-retry protocol
-- ============================================================================

/-- Claim C10 confirmed: rack_vst3_plugin_get_state_size returns the constant
1048576 for every input, null and uninitialized handles included, never
consulting the plugin; the actual required size is communicated by get_state,
which, when the caller buffer is smaller than the serialized state, writes
the exact required size into the size out-parameter, copies nothing, and
returns INVALID_PARAM so the caller can retry with a large enough buffer. -/
theorem claim10_confirmed (p : Option VST3State) (env : VstGetStateEnv) (bufSize : Nat)
    (h0 : 0 < bufSize) (hc : env.componentOK = true)
    (hctrl : env.hasSeparateController = true → env.controllerOK = true)
    (hsmall : bufSize < env.engineBytes.length + 4 +
      (if env.hasSeparateController then env.controllerBytes.length else 0)) :
    vst3_get_state_size p = 1048576 ∧
    vst3_get_state env true bufSize =
      ⟨RACK_VST3_ERROR_INVALID_PARAM, none,
        env.engineBytes.length + 4 +
          (if env.hasSeparateController then env.controllerBytes.length else 0)⟩ := by
  refine ⟨rfl, ?_⟩
  rw [vst3_get_state]
  simp only [not_true_eq_false, if_false, hc, if_neg (by omega : ¬ bufSize = 0)]
  rw [memstream_write_empty]
  dsimp only
  rw [memstream_write_at_end]
  have hu4 : (u32le env.engineBytes.length).length = 4 := rfl
  have hlen2 : (env.engineBytes ++ u32le env.engineBytes.length).length =
      env.engineBytes.length + 4 := by
    simp [hu4]
  cases hsep : env.hasSeparateController with
  | false =>
    simp only [hsep, Bool.false_eq_true, false_and, if_false, ite_false, reduceIte] at hsmall ⊢
    rw [hlen2, if_pos (by omega)]
  | true =>
    have hco : env.controllerOK = true := hctrl hsep
    simp only [hsep, hco, not_true_eq_false, and_false, if_false, if_true, ite_true,
      reduceIte] at hsmall ⊢
    have hw3 : (MemStream.mk (env.engineBytes ++ u32le env.engineBytes.length)
          (env.engineBytes.length + (u32le env.engineBytes.length).length)).write
        env.controllerBytes =
        ⟨env.engineBytes ++ u32le env.engineBytes.length ++ env.controllerBytes,
          env.engineBytes.length + 4 + env.controllerBytes.length⟩ := by
      rw [hu4, show env.engineBytes.length + 4 =
          (env.engineBytes ++ u32le env.engineBytes.length).length from hlen2.symm,
        memstream_write_at_end, hlen2]
    rw [hw3]
    have hlen3 : (env.engineBytes ++ u32le env.engineBytes.length ++
        env.controllerBytes).length =
        env.engineBytes.length + 4 + env.controllerBytes.length := by
      simp [hu4]
      omega
    rw [hlen3, if_pos (by omega)]

/-- Claim C10 witness: a null plugin handle still reports the constant 1 MB
hint, and a concrete get_state into a 1-byte buffer reports the true required
size 7 with INVALID_PARAM. -/
theorem claim10_witness :
    vst3_get_state_size none = 1048576 ∧
    vst3_get_state ⟨true, [1, 2, 3], false, true, []⟩ true 1 =
      ⟨RACK_VST3_ERROR_INVALID_PARAM, none, 7⟩ := by
  have h := claim10_confirmed none ⟨true, [1, 2, 3], false, true, []⟩ 1
    (by decide) rfl (by intro hx; cases hx) (by decide)
  exact ⟨h.1, by simpa using h.2⟩
